import Mathlib

/-!
Shallow embedding of `core/logx/rotatelogger.go` (the rotating file writer of
go-zero) together with the rotation rules `DailyRotateRule` and
`SizeLimitRotateRule`, and proofs about the embedded operations.

Conventions of the embedding:
* Go `int` values (sizes, counters, day counts) are modelled as `Int`; the
  values involved (file sizes, day counts) stay far below 2^63, so 64-bit
  wraparound is irrelevant and is not modelled.
* `[]byte` records are modelled as `List Nat`.
* The clock is an environment input: wherever the Go code calls
  `time.Now()` and formats it, the embedded function receives the already
  formatted string (or, for the instant-level lemmas, the time in minutes).
* Filesystem effects (glob results, stat/rename/create outcomes) are
  environment inputs threaded explicitly.
-/

/-- Constant `megabyte = 1024 * 1024` from the source. -/
def megabyte : Int := 1024 * 1024

/-- Constant `hoursPerDay = 24` from the source. -/
def hoursPerDay : Int := 24

/-- Constant `gzipExt = ".gz"` from the source. -/
def gzipExt : String := ".gz"

/-- Strict lexicographic order on character lists, modelling Go's `<` on
strings (byte order; identical to code-point order on the ASCII names
involved). Defined structurally so concrete instances evaluate. -/
def lexLt : List Char → List Char → Bool
  | [], [] => false
  | [], _ :: _ => true
  | _ :: _, [] => false
  | a :: as, b :: bs => if a < b then true else if b < a then false else lexLt as bs

/-- Go `s < t` on strings. -/
def goStrLt (s t : String) : Bool :=
  lexLt s.data t.data

/-- Go `s <= t` on strings (the order `sort.Strings` uses). -/
def goStrLe (s t : String) : Bool :=
  !(lexLt t.data s.data)

/-- Fuel-driven worker for `goSplit`: scan `s`, splitting at each occurrence
of the non-empty separator `sep`. `acc` holds the current field reversed.
The fuel starts at the length of the scanned list, which step counting shows
is enough; it only exists to make the recursion structural. -/
def goSplitAux (sep : List Char) : Nat → List Char → List Char → List (List Char)
  | _, [], acc => [acc.reverse]
  | 0, s, acc => [acc.reverse ++ s]
  | fuel + 1, c :: cs, acc =>
    if sep.isPrefixOf (c :: cs) then
      acc.reverse :: goSplitAux sep fuel ((c :: cs).drop sep.length) []
    else
      goSplitAux sep fuel cs (c :: acc)

/-- Models Go `strings.Split s sep` for a non-empty separator (the only way
the source uses it); for the degenerate empty separator it returns `[s]`. -/
def goSplit (s sep : String) : List String :=
  if sep.data = [] then [s]
  else (goSplitAux sep.data s.data.length s.data []).map String.mk

/-- Models the Go slice `s[:len(s)-n]` (drop the last `n` characters; the
names involved are ASCII so bytes and characters coincide). -/
def goDropRight (s : String) (n : Nat) : String :=
  String.mk (s.data.take (s.data.length - n))

/-- Models Go `path/filepath.Base` for slash-clean, non-empty file paths:
the final path component. -/
def filepathBase (p : String) : String :=
  (goSplit p "/").getLastD ""

/-- Models Go `path/filepath.Dir` for slash-clean file paths: everything
before the final component, `"."` when there is no slash. -/
def filepathDir (p : String) : String :=
  let parts := goSplit p "/"
  if parts.length ≤ 1 then "." else String.intercalate "/" parts.dropLast

/-- Models Go `path/filepath.Ext`: the suffix of the final path component
starting at its final dot, `""` when the final component has no dot. -/
def filepathExt (p : String) : String :=
  let b := filepathBase p
  let parts := goSplit b "."
  if parts.length ≤ 1 then "" else "." ++ parts.getLastD ""

/-- Models Go `path/filepath.Join dir name` for a clean non-empty `dir`. -/
def filepathJoin (dir name : String) : String :=
  if dir = "" then name else dir ++ "/" ++ name

/-- Models Go `filepath.Glob` matching for the single-star patterns the
source builds (`pre*suf`): `s` matches iff it starts with `pre`, ends with
`suf`, and the middle contains no path separator. The length test comes
first so that a match certifies `pre.length + suf.length ≤ s.length`. -/
def matchStar (pre suf s : String) : Bool :=
  decide (pre.length + suf.length ≤ s.length) &&
  pre.data.isPrefixOf s.data &&
  suf.data.isSuffixOf s.data &&
  !(((s.data.drop pre.length).take (s.length - pre.length - suf.length)).contains '/')

/-- Models Go `sort.Strings` (lexicographic byte order on our ASCII names). -/
def sortStrings (l : List String) : List String :=
  List.insertionSort (fun a b => goStrLe a b = true) l

/-- The `DailyRotateRule` struct of the source. -/
structure DailyRotateRule where
  rotatedTime : String
  filename : String
  delimiter : String
  days : Int
  gzip : Bool
deriving DecidableEq

/-- The `SizeLimitRotateRule` struct of the source; the embedded
`DailyRotateRule` is the `daily` field. -/
structure SizeLimitRotateRule where
  daily : DailyRotateRule
  maxSize : Int
  maxBackups : Int
deriving DecidableEq

/-- `DailyRotateRule.BackupFileName` (source line 89): `filename`, the
delimiter and the formatted current date. `today` is the environment's
`getNowDate()` string. -/
def DailyRotateRule.BackupFileName (r : DailyRotateRule) (today : String) : String :=
  r.filename ++ r.delimiter ++ today

/-- `DailyRotateRule.MarkRotated` (source line 94): store the current
formatted date as the rotated-time marker. -/
def DailyRotateRule.MarkRotated (r : DailyRotateRule) (today : String) : DailyRotateRule :=
  { r with rotatedTime := today }

/-- `DailyRotateRule.ShallRotate` (source line 136):
`len(r.rotatedTime) > 0 && getNowDate() != r.rotatedTime`. The size
arguments are received and ignored exactly as in the source. -/
def DailyRotateRule.ShallRotate (r : DailyRotateRule) (today : String)
    (currentSize writeLen : Int) : Bool :=
  decide (0 < r.rotatedTime.length) && decide (today ≠ r.rotatedTime)

/-- `SizeLimitRotateRule.ShallRotate` (source line 155):
`r.maxSize > 0 && r.maxSize*megabyte < currentSize+writeLen`. -/
def SizeLimitRotateRule.ShallRotate (r : SizeLimitRotateRule)
    (currentSize writeLen : Int) : Bool :=
  decide (0 < r.maxSize) && decide (r.maxSize * megabyte < currentSize + writeLen)

/-- `SizeLimitRotateRule.parseFilename` (source line 159): directory, base
name, extension and extension-less base of the rule's filename. -/
def SizeLimitRotateRule.parseFilename (r : SizeLimitRotateRule) :
    String × String × String × String :=
  let dir := filepathDir r.daily.filename
  let logname := filepathBase r.daily.filename
  let ext := filepathExt r.daily.filename
  (dir, logname, ext, goDropRight logname ext.length)

/-- `SizeLimitRotateRule.BackupFileName` (source line 167):
`dir/<prefix><delimiter><timestamp><ext>`. `timestamp` is the environment's
`getNowDateInRFC3339Format()` string. -/
def SizeLimitRotateRule.BackupFileName (r : SizeLimitRotateRule)
    (timestamp : String) : String :=
  let dir := filepathDir r.daily.filename
  let ext := filepathExt r.daily.filename
  let pfx := goDropRight (filepathBase r.daily.filename) ext.length
  filepathJoin dir (pfx ++ r.daily.delimiter ++ timestamp ++ ext)

/-- `SizeLimitRotateRule.MarkRotated` (source line 174): store the shifted
RFC3339 timestamp as the rotated-time marker. -/
def SizeLimitRotateRule.MarkRotated (r : SizeLimitRotateRule)
    (timestamp : String) : SizeLimitRotateRule :=
  { r with daily.rotatedTime := timestamp }

/-- `DailyRotateRule.OutdatedFiles` (source line 99). `existing` is the set
of files present on disk (the environment of `filepath.Glob`); `boundary` is
the environment's formatted `time.Now().Add(-24h*days)` date string. The
glob-error branch (an environment failure) is not modelled. -/
def DailyRotateRule.OutdatedFiles (r : DailyRotateRule) (existing : List String)
    (boundary : String) : List String :=
  if r.days ≤ 0 then []
  else
    let patPre := r.filename ++ r.delimiter
    let patSuf := if r.gzip then gzipExt else ""
    let files := existing.filter (fun f => matchStar patPre patSuf f)
    let boundaryFile :=
      r.filename ++ r.delimiter ++ boundary ++ (if r.gzip then gzipExt else "")
    files.filter (fun f => goStrLt f boundaryFile)

/-- `SizeLimitRotateRule.OutdatedFiles` (source line 178). `existing` is the
set of files on disk, `boundary` the environment's formatted
`time.Now().Add(-24h*days)` RFC3339 string. The Go code collects the result
in a map and returns it in arbitrary iteration order; the embedding returns
the deduplicated list (count-filter victims first, then age-filter victims),
and theorems only use it up to permutation/membership. -/
def SizeLimitRotateRule.OutdatedFiles (r : SizeLimitRotateRule)
    (existing : List String) (boundary : String) : List String :=
  let dir := filepathDir r.daily.filename
  let ext := filepathExt r.daily.filename
  let pfx := goDropRight (filepathBase r.daily.filename) ext.length
  let patPre := dir ++ "/" ++ pfx ++ r.daily.delimiter
  let patSuf := if r.daily.gzip then ext ++ gzipExt else ext
  let files := sortStrings (existing.filter (fun f => matchStar patPre patSuf f))
  let excess :=
    if 0 < r.maxBackups ∧ r.maxBackups < (files.length : Int) then
      files.length - r.maxBackups.toNat
    else 0
  let outdated1 := files.take excess
  let files1 := files.drop excess
  let outdated2 :=
    if 0 < r.daily.days then
      let bf0 := filepathJoin dir (pfx ++ r.daily.delimiter ++ boundary ++ ext)
      let bf := if r.daily.gzip then bf0 ++ gzipExt else bf0
      files1.takeWhile (fun f => goStrLt f bf)
    else []
  (outdated1 ++ outdated2).dedup

/-- Modelled from the Go standard library: `time.Parse(time.RFC3339, s)`
fails on any string shorter than a complete `2006-01-02T15:04:05Z07:00`
timestamp; in particular it fails on the empty string. Success is modelled
as returning the input. Only the failure on `""` matters below. -/
def timeParseRFC3339Model (s : String) : Option String :=
  if s.length < 20 then none else some s

/-- The split that `SizeLimitRotateRule.parseBackupTime` performs (source
line 235): strip the `.gz` suffix when compressing, strip the extension,
split on the delimiter (`goSplit` models `strings.Split` for a
non-empty separator). -/
def SizeLimitRotateRule.backupTimeSegments (r : SizeLimitRotateRule)
    (file : String) : List String :=
  let file1 := if r.daily.gzip then goDropRight file gzipExt.length else file
  let file2 := goDropRight file1 (filepathExt file1).length
  goSplit file2 r.daily.delimiter

/-- `SizeLimitRotateRule.parseBackupTime` (source line 230), parameterized
over the time parser (`time.Parse(time.RFC3339, ·)` in Go). As in the
source, the local variable `t` is declared and never assigned from the split
result before being handed to the parser. `none` models the error returns. -/
def SizeLimitRotateRule.parseBackupTime (r : SizeLimitRotateRule)
    (parse : String → Option String) (file : String) : Option String :=
  let s := SizeLimitRotateRule.backupTimeSegments r file
  let t := ""
  if s.length ≠ 2 then none
  else parse t

/-- Instant-level model of `getNowDateInRFC3339Format` (source line 436):
the instant that gets formatted is `time.Now().Add((-24*60+5)*time.Minute)`.
Times are in minutes; the RFC3339 rendering (strictly monotone for a fixed
time zone) is left to the caller. -/
def getNowDateInRFC3339FormatInstant (nowMin : Int) : Int :=
  nowMin + (-24 * 60 + 5)

/-- Instant-level model of the age boundary in
`SizeLimitRotateRule.OutdatedFiles` (source line 208):
`time.Now().Add(-time.Hour * 24 * days)`, in minutes, unshifted. -/
def sizeLimitBoundaryInstant (nowMin days : Int) : Int :=
  nowMin - 60 * (hoursPerDay * days)

/-- The clock environment sampled during one writer step: the two formatted
now-strings the rules consult (`getNowDate()` and
`getNowDateInRFC3339Format()`). -/
structure Clock where
  nowDate : String
  nowRFC3339Shifted : String
deriving DecidableEq

/-- The `RotateRule` interface of the source, as a record of operations over
a rule-state type `ρ`, each taking the sampled clock. -/
structure RuleOps (ρ : Type) where
  shallRotate : Clock → ρ → Int → Int → Bool
  markRotated : Clock → ρ → ρ
  backupFileName : Clock → ρ → String

/-- The `RotateRule` instance formed by the `DailyRotateRule` methods. -/
def dailyOps : RuleOps DailyRotateRule where
  shallRotate c r currentSize writeLen :=
    DailyRotateRule.ShallRotate r c.nowDate currentSize writeLen
  markRotated c r := DailyRotateRule.MarkRotated r c.nowDate
  backupFileName c r := DailyRotateRule.BackupFileName r c.nowDate

/-- The `RotateRule` instance formed by the `SizeLimitRotateRule` methods.
`MarkRotated` and `BackupFileName` consume the shifted RFC3339 timestamp,
exactly as the source calls `getNowDateInRFC3339Format()` in both. -/
def sizeLimitOps : RuleOps SizeLimitRotateRule where
  shallRotate _ r currentSize writeLen :=
    SizeLimitRotateRule.ShallRotate r currentSize writeLen
  markRotated c r := SizeLimitRotateRule.MarkRotated r c.nowRFC3339Shifted
  backupFileName c r := SizeLimitRotateRule.BackupFileName r c.nowRFC3339Shifted

/-- The errors a rotation can surface (`fp.Close`, `os.Rename`, `os.Create`
failures). -/
inductive RotateErr where
  | closeErr
  | renameErr
  | createErr
deriving DecidableEq

/-- The file-system operations `rotate` performs, recorded as a trace. -/
inductive FileOp where
  | closeFp
  | statF
  | renameF
  | createF
deriving DecidableEq

/-- Environment outcomes for the fallible filesystem calls inside `rotate`. -/
structure RotateEnv where
  closeOk : Bool
  renameOk : Bool
  createOk : Bool
deriving DecidableEq

/-- The `RotateLogger` struct (source line 45) restricted to the state the
writer task manipulates, together with a model of the relevant filesystem:
`fpOpen` models `fp != nil`, `activeContents`/`activeExists` model the file
at `filename` (as the list of records appended to it), and `backups` the
renamed-away backup files. The channels and the wait/once guards are
modelled separately (see `CloseState` and `RotateLogger.WriteSelect`). -/
structure RotateLogger (ρ : Type) where
  filename : String
  backup : String
  fpOpen : Bool
  rule : ρ
  currentSize : Int
  activeContents : List (List Nat)
  activeExists : Bool
  backups : List (String × List (List Nat))

/-- `RotateLogger.getBackupFilename` (source line 295). -/
def RotateLogger.getBackupFilename {ρ : Type} (ops : RuleOps ρ) (c : Clock)
    (l : RotateLogger ρ) : String :=
  if l.backup.length = 0 then ops.backupFileName c l.rule else l.backup

/-- `RotateLogger.rotate` (source line 362). Returns the new state, the
error result, and the trace of filesystem operations attempted. Following
the source: close the handle first (a close failure aborts), stat the
target; when it exists and a backup name is cached, rename it to the backup
name (a rename failure aborts — note the source returns before reaching
`os.Create`); then recompute the cached backup name from the rule and
create a fresh target file. `postRotate` (compression/cleanup) runs
asynchronously and does not change this state. -/
def RotateLogger.rotate {ρ : Type} (ops : RuleOps ρ) (c : Clock)
    (env : RotateEnv) (l : RotateLogger ρ) :
    RotateLogger ρ × Option RotateErr × List FileOp :=
  let closeTrace : List FileOp := if l.fpOpen then [FileOp.closeFp] else []
  if l.fpOpen ∧ env.closeOk = false then
    ({ l with fpOpen := false }, some RotateErr.closeErr, closeTrace)
  else
    let l1 := { l with fpOpen := false }
    if l1.activeExists ∧ l1.backup ≠ "" then
      if env.renameOk then
        let bfn := RotateLogger.getBackupFilename ops c l1
        let l2 := { l1 with
          activeExists := false
          activeContents := []
          backups := (bfn, l1.activeContents) :: l1.backups }
        let l3 := { l2 with backup := ops.backupFileName c l2.rule }
        if env.createOk then
          ({ l3 with fpOpen := true, activeExists := true, activeContents := [] },
            none, closeTrace ++ [FileOp.statF, FileOp.renameF, FileOp.createF])
        else
          (l3, some RotateErr.createErr,
            closeTrace ++ [FileOp.statF, FileOp.renameF, FileOp.createF])
      else
        (l1, some RotateErr.renameErr, closeTrace ++ [FileOp.statF, FileOp.renameF])
    else
      let l3 := { l1 with backup := ops.backupFileName c l1.rule }
      if env.createOk then
        ({ l3 with fpOpen := true, activeExists := true, activeContents := [] },
          none, closeTrace ++ [FileOp.statF, FileOp.createF])
      else
        (l3, some RotateErr.createErr, closeTrace ++ [FileOp.statF, FileOp.createF])

/-- `RotateLogger.write` (source line 407), the step the writer task runs on
each record `v`: evaluate `ShallRotate(currentSize, len(v))`; on true,
rotate — a rotation error is logged and skipped, a successful rotation is
followed by `MarkRotated` and resetting the counter; finally, when a handle
is open, append the record and add its length to the counter. -/
def RotateLogger.write {ρ : Type} (ops : RuleOps ρ) (c : Clock)
    (env : RotateEnv) (l : RotateLogger ρ) (v : List Nat) : RotateLogger ρ :=
  let l' :=
    if ops.shallRotate c l.rule l.currentSize (v.length : Int) then
      let r := RotateLogger.rotate ops c env l
      match r.2.1 with
      | some _ => r.1
      | none => { r.1 with rule := ops.markRotated c r.1.rule, currentSize := 0 }
    else l
  if l'.fpOpen then
    { l' with
      activeContents := l'.activeContents ++ [v]
      currentSize := l'.currentSize + (v.length : Int) }
  else l'

/-- The close-once state of a `RotateLogger`: whether `closeOnce.Do` has
already run. -/
structure CloseState where
  onceDone : Bool
deriving DecidableEq

/-- Environment outcomes of the two filesystem calls inside `Close`
(source line 268): the results of `fp.Sync()` and `fp.Close()`, `none`
meaning success. -/
structure CloseEnv where
  syncRes : Option String
  closeRes : Option String
deriving DecidableEq

/-- The filesystem operations `Close` can perform. -/
inductive CloseOp where
  | syncF
  | closeF
deriving DecidableEq

/-- `RotateLogger.Close` (source line 268). The local `err` starts `nil` on
every call; `closeOnce.Do` runs the body (signal done, wait for the worker,
sync, close) only on the first call, so a later call returns its own,
never-assigned local `err`. Returns the error result, the new once-state and
the trace of filesystem operations performed. -/
def RotateLogger.Close (env : CloseEnv) (st : CloseState) :
    Option String × CloseState × List CloseOp :=
  if st.onceDone then (none, st, [])
  else
    let st' : CloseState := { onceDone := true }
    match env.syncRes with
    | some e => (some e, st', [CloseOp.syncF])
    | none => (env.closeRes, st', [CloseOp.syncF, CloseOp.closeF])

/-- `RotateLogger.Write` (source line 285): a `select` between sending on
the record channel and receiving on the closed `done` channel.
`sendReady` is true when the channel send can proceed (buffer space or a
waiting receiver), `doneClosed` when the done channel has been closed;
when both cases are ready the Go runtime picks one pseudo-randomly, modelled
by the oracle `pick` (`true` = the send case). The result is `none` when
the call blocks, otherwise `some (bytesAccepted, closedErr, fallbackLogged)`
where `closedErr` models returning `ErrLogFileClosed` and `fallbackLogged`
models the `log.Println` of the record to the process-level fallback sink. -/
def RotateLogger.WriteSelect (sendReady doneClosed pick : Bool)
    (dataLen : Int) : Option (Int × Bool × Bool) :=
  if sendReady && doneClosed then
    if pick then some (dataLen, false, false) else some (0, true, true)
  else if sendReady then some (dataLen, false, false)
  else if doneClosed then some (0, true, true)
  else none

/-- A string has positive length iff it is not the empty string. -/
lemma string_pos_length_iff (s : String) : 0 < s.length ↔ s ≠ "" := by
  cases s with
  | mk data => cases data <;> simp [String.length, String.ext_iff]

/-- C2: `SizeLimitRotateRule.ShallRotate cur len` is true iff the configured
`maxSize` is strictly positive and `maxSize * 1048576 < cur + len`; in
particular it is false for every `cur` and `len` when `maxSize = 0`. -/
theorem c2_size_limit_shall_rotate_iff (r : SizeLimitRotateRule) (cur len : Int) :
    (SizeLimitRotateRule.ShallRotate r cur len = true ↔
      0 < r.maxSize ∧ r.maxSize * 1048576 < cur + len)
    ∧ (r.maxSize = 0 → SizeLimitRotateRule.ShallRotate r cur len = false) := by
  constructor
  · simp [SizeLimitRotateRule.ShallRotate, megabyte]
  · intro h
    simp [SizeLimitRotateRule.ShallRotate, h]

/-- Witness for C2 at concrete inputs: with `maxSize = 1` the predicate is
true at `614400 + 614400` and with `maxSize = 0` it is false. -/
theorem c2_size_limit_shall_rotate_iff_witness :
    (SizeLimitRotateRule.ShallRotate
      { daily := { rotatedTime := "", filename := "a.log", delimiter := "-",
                   days := 0, gzip := false },
        maxSize := 1, maxBackups := 0 } 614400 614400 = true)
    ∧ (SizeLimitRotateRule.ShallRotate
      { daily := { rotatedTime := "", filename := "a.log", delimiter := "-",
                   days := 0, gzip := false },
        maxSize := 0, maxBackups := 0 } 999999999 999999999 = false) := by
  refine ⟨?_, ?_⟩
  · exact (c2_size_limit_shall_rotate_iff _ 614400 614400).1.mpr (by norm_num)
  · exact (c2_size_limit_shall_rotate_iff _ 999999999 999999999).2 rfl

/-- C7: `DailyRotateRule.ShallRotate` is true iff the rotated-time marker is
non-empty and the current formatted date differs from it; the size arguments
never affect the result; immediately after `MarkRotated` (which sets the
marker to the current date) it is false, and it becomes true exactly when
the formatted date differs from the marked one. -/
theorem c7_daily_shall_rotate (r : DailyRotateRule) (today : String) (cur len : Int) :
    (DailyRotateRule.ShallRotate r today cur len = true ↔
      r.rotatedTime ≠ "" ∧ today ≠ r.rotatedTime)
    ∧ (∀ cur' len', DailyRotateRule.ShallRotate r today cur' len' =
        DailyRotateRule.ShallRotate r today cur len)
    ∧ (DailyRotateRule.ShallRotate (DailyRotateRule.MarkRotated r today) today cur len
        = false)
    ∧ (∀ day', today ≠ "" → day' ≠ today →
        DailyRotateRule.ShallRotate (DailyRotateRule.MarkRotated r today) day' cur len
          = true) := by
  refine ⟨?_, fun _ _ => rfl, ?_, ?_⟩
  · simp [DailyRotateRule.ShallRotate, string_pos_length_iff, and_comm]
  · simp [DailyRotateRule.ShallRotate, DailyRotateRule.MarkRotated]
  · intro day' htoday hday
    simp [DailyRotateRule.ShallRotate, DailyRotateRule.MarkRotated,
      string_pos_length_iff, htoday, hday]

/-- Witness for C7 at a concrete rule and dates: after marking rotated on
2025-01-10 the predicate is false that day and true on 2025-01-11,
independently of the size arguments. -/
theorem c7_daily_shall_rotate_witness :
    (DailyRotateRule.ShallRotate
      (DailyRotateRule.MarkRotated
        { rotatedTime := "2025-01-09", filename := "a.log", delimiter := "-",
          days := 0, gzip := false } "2025-01-10") "2025-01-10" 0 0 = false)
    ∧ (DailyRotateRule.ShallRotate
      (DailyRotateRule.MarkRotated
        { rotatedTime := "2025-01-09", filename := "a.log", delimiter := "-",
          days := 0, gzip := false } "2025-01-10") "2025-01-11" 7 9 = true) := by
  refine ⟨(c7_daily_shall_rotate _ "2025-01-10" 0 0).2.2.1, ?_⟩
  exact (c7_daily_shall_rotate
    { rotatedTime := "2025-01-09", filename := "a.log", delimiter := "-",
      days := 0, gzip := false } "2025-01-10" 7 9).2.2.2 "2025-01-11"
    (by decide) (by decide)

/-- C10: the instant `getNowDateInRFC3339Format` renders (used by the
SizeLimit rule's `MarkRotated` and `BackupFileName`) is the current time
minus 1435 minutes (23 h 55 min), while the age boundary of
`SizeLimitRotateRule.OutdatedFiles` is rendered from the unshifted current
time minus the retention window; consequently (RFC3339 rendering in a fixed
zone being strictly monotone) a size-limit backup written at time `t` falls
below the boundary iff its true age `now - t` exceeds the configured window
shortened by 1435 minutes. -/
theorem c10_size_limit_timestamp_shift (nowMin days t : Int) :
    getNowDateInRFC3339FormatInstant nowMin = nowMin - 1435
    ∧ sizeLimitBoundaryInstant nowMin days = nowMin - 1440 * days
    ∧ (getNowDateInRFC3339FormatInstant t < sizeLimitBoundaryInstant nowMin days ↔
        1440 * days - 1435 < nowMin - t) := by
  refine ⟨?_, ?_, ?_⟩
  · simp [getNowDateInRFC3339FormatInstant]; ring
  · simp [sizeLimitBoundaryInstant, hoursPerDay]; ring
  · simp [getNowDateInRFC3339FormatInstant, sizeLimitBoundaryInstant, hoursPerDay]
    omega

/-- C5: `SizeLimitRotateRule.parseBackupTime` hands the parser the local
variable `t`, which is never assigned from the split of the filename; hence
whenever the filename splits into exactly two parts on the delimiter the
parser receives `""`, and for any parser that rejects `""` (as
`time.Parse(time.RFC3339, ·)` does) the function returns an error on every
input, never a valid timestamp. -/
theorem c5_parse_backup_time_always_fails (r : SizeLimitRotateRule)
    (parse : String → Option String) (file : String) :
    ((SizeLimitRotateRule.backupTimeSegments r file).length = 2 →
      SizeLimitRotateRule.parseBackupTime r parse file = parse "")
    ∧ (parse "" = none →
      SizeLimitRotateRule.parseBackupTime r parse file = none) := by
  constructor
  · intro h
    simp [SizeLimitRotateRule.parseBackupTime, h]
  · intro h
    by_cases h2 : (SizeLimitRotateRule.backupTimeSegments r file).length = 2 <;>
      simp [SizeLimitRotateRule.parseBackupTime, h, h2]

/-- Witness for C5: a concrete filename that does split into exactly two
parts on the delimiter, with the modelled RFC3339 parser: the parser gets
`""` and the function returns an error. -/
theorem c5_parse_backup_time_always_fails_witness :
    (SizeLimitRotateRule.backupTimeSegments
      { daily := { rotatedTime := "", filename := "d/a.log", delimiter := "_",
                   days := 0, gzip := false },
        maxSize := 1, maxBackups := 0 } "d/a_20250110T000000Z.log").length = 2
    ∧ timeParseRFC3339Model "" = none
    ∧ SizeLimitRotateRule.parseBackupTime
      { daily := { rotatedTime := "", filename := "d/a.log", delimiter := "_",
                   days := 0, gzip := false },
        maxSize := 1, maxBackups := 0 } timeParseRFC3339Model
      "d/a_20250110T000000Z.log" = none := by
  refine ⟨by decide, rfl, ?_⟩
  exact (c5_parse_backup_time_always_fails _ timeParseRFC3339Model
    "d/a_20250110T000000Z.log").2 rfl

/-- C8 (amended to non-empty delimiters): `DailyRotateRule.OutdatedFiles`
returns nothing when the retention days are not positive; for every
non-empty delimiter it never includes the active target file; and on a
concrete instance with retention 3 days (today 2025-01-10, boundary
2025-01-07) the backup dated 4 days ago is reported outdated while the one
dated 2 days ago is not. -/
theorem c8_daily_outdated_files (r : DailyRotateRule) (existing : List String)
    (boundary : String) :
    (r.days ≤ 0 → DailyRotateRule.OutdatedFiles r existing boundary = [])
    ∧ (r.delimiter ≠ "" →
        r.filename ∉ DailyRotateRule.OutdatedFiles r existing boundary)
    ∧ DailyRotateRule.OutdatedFiles
        { rotatedTime := "2025-01-10", filename := "a.log", delimiter := "-",
          days := 3, gzip := false }
        ["a.log", "a.log-2025-01-06", "a.log-2025-01-08"] "2025-01-07"
        = ["a.log-2025-01-06"] := by
  refine ⟨?_, ?_, by decide⟩
  · intro h
    simp [DailyRotateRule.OutdatedFiles, h]
  · intro hdelim hmem
    rw [DailyRotateRule.OutdatedFiles] at hmem
    by_cases hd : r.days ≤ 0
    · simp [hd] at hmem
    · simp only [hd, if_false] at hmem
      have h1 := (List.mem_filter.mp hmem).1
      have h2 := (List.mem_filter.mp h1).2
      rw [matchStar] at h2
      have h3 := (Bool.and_eq_true _ _).mp
        ((Bool.and_eq_true _ _).mp ((Bool.and_eq_true _ _).mp h2).1).1
      have h4 := of_decide_eq_true h3.1
      rw [String.length_append] at h4
      have h5 : r.delimiter.length = 0 := by omega
      have h6 := (string_pos_length_iff r.delimiter).mpr hdelim
      omega

/-- Witness for C8 at concrete inputs: retention 0 keeps everything, and
with the non-empty delimiter `-` the active file is not reported. -/
theorem c8_daily_outdated_files_witness :
    (DailyRotateRule.OutdatedFiles
      { rotatedTime := "2025-01-10", filename := "a.log", delimiter := "-",
        days := 0, gzip := false } ["a.log-2025-01-01"] "2025-01-07" = [])
    ∧ ("a.log" ∉ DailyRotateRule.OutdatedFiles
      { rotatedTime := "2025-01-10", filename := "a.log", delimiter := "-",
        days := 3, gzip := false } ["a.log", "a.log-2025-01-06"] "2025-01-07") := by
  constructor
  · exact (c8_daily_outdated_files _ ["a.log-2025-01-01"] "2025-01-07").1 (by decide)
  · exact (c8_daily_outdated_files
      { rotatedTime := "2025-01-10", filename := "a.log", delimiter := "-",
        days := 3, gzip := false } ["a.log", "a.log-2025-01-06"] "2025-01-07").2.1
      (by decide)

/-- Counterexample to C8 as stated: with the (degenerate but allowed) empty
delimiter, the glob pattern `<filename>*` matches the active file itself and
the active file name sorts before the boundary name, so `OutdatedFiles`
reports the active target file as outdated. -/
theorem c8_daily_outdated_files_counterexample :
    "a.log" ∈ DailyRotateRule.OutdatedFiles
      { rotatedTime := "2025-01-10", filename := "a.log", delimiter := "",
        days := 3, gzip := false } ["a.log"] "2025-01-07" := by
  decide

/-- C6: `SizeLimitRotateRule.OutdatedFiles` with `maxBackups = 2` and five
existing backups (given in scrambled glob order) reports exactly the three
lexicographically oldest; with a retention window additionally configured
(boundary 2025-01-04T12:00:00Z), the count filter and the age filter are
unioned — the age filter runs on the two survivors of the count filter and
still marks the backup `f4`, which is within the newest `maxBackups` but
older than the window, so the result is exactly the four oldest. The Go
code returns these sets in arbitrary map-iteration order, so the statements
are up to permutation. -/
theorem c6_size_limit_outdated_files :
    List.Perm
      (SizeLimitRotateRule.OutdatedFiles
        { daily := { rotatedTime := "", filename := "d/a.log", delimiter := "-",
                     days := 0, gzip := false },
          maxSize := 1, maxBackups := 2 }
        ["d/a-2025-01-03T00:00:00Z.log", "d/a-2025-01-01T00:00:00Z.log",
         "d/a-2025-01-05T00:00:00Z.log", "d/a-2025-01-02T00:00:00Z.log",
         "d/a-2025-01-04T00:00:00Z.log"] "2025-01-04T12:00:00Z")
      ["d/a-2025-01-01T00:00:00Z.log", "d/a-2025-01-02T00:00:00Z.log",
       "d/a-2025-01-03T00:00:00Z.log"]
    ∧ List.Perm
      (SizeLimitRotateRule.OutdatedFiles
        { daily := { rotatedTime := "", filename := "d/a.log", delimiter := "-",
                     days := 2, gzip := false },
          maxSize := 1, maxBackups := 2 }
        ["d/a-2025-01-03T00:00:00Z.log", "d/a-2025-01-01T00:00:00Z.log",
         "d/a-2025-01-05T00:00:00Z.log", "d/a-2025-01-02T00:00:00Z.log",
         "d/a-2025-01-04T00:00:00Z.log"] "2025-01-04T12:00:00Z")
      ["d/a-2025-01-01T00:00:00Z.log", "d/a-2025-01-02T00:00:00Z.log",
       "d/a-2025-01-03T00:00:00Z.log", "d/a-2025-01-04T00:00:00Z.log"]
    ∧ "d/a-2025-01-04T00:00:00Z.log" ∈
      SizeLimitRotateRule.OutdatedFiles
        { daily := { rotatedTime := "", filename := "d/a.log", delimiter := "-",
                     days := 2, gzip := false },
          maxSize := 1, maxBackups := 2 }
        ["d/a-2025-01-03T00:00:00Z.log", "d/a-2025-01-01T00:00:00Z.log",
         "d/a-2025-01-05T00:00:00Z.log", "d/a-2025-01-02T00:00:00Z.log",
         "d/a-2025-01-04T00:00:00Z.log"] "2025-01-04T12:00:00Z" := by
  refine ⟨by decide, by decide, by decide⟩

/-- C1: in the writer step, when `ShallRotate(currentSize, len(v))` holds
and the rotation (close, rename, create) succeeds, the byte counter is reset
and `MarkRotated` applied before the record is written; hence the record
that triggered the rotation is the only record of the fresh active file, the
counter afterwards equals exactly that record's length, and the previous
contents moved to a backup file under the cached backup name. -/
theorem c1_rotating_record_first_in_new_file {ρ : Type} (ops : RuleOps ρ)
    (c : Clock) (env : RotateEnv) (l : RotateLogger ρ) (v : List Nat)
    (hshall : ops.shallRotate c l.rule l.currentSize (v.length : Int) = true)
    (hclose : env.closeOk = true) (hrename : env.renameOk = true)
    (hcreate : env.createOk = true)
    (hexists : l.activeExists = true) (hbackup : l.backup ≠ "") :
    (RotateLogger.write ops c env l v).activeContents = [v]
    ∧ (RotateLogger.write ops c env l v).currentSize = (v.length : Int)
    ∧ (RotateLogger.write ops c env l v).rule = ops.markRotated c l.rule
    ∧ (RotateLogger.write ops c env l v).backups
        = (l.backup, l.activeContents) :: l.backups := by
  have hlen : ¬(l.backup.length = 0) := by
    have := (string_pos_length_iff l.backup).mpr hbackup
    omega
  simp [RotateLogger.write, RotateLogger.rotate, RotateLogger.getBackupFilename,
    hshall, hclose, hrename, hcreate, hexists, hbackup, hlen]

/-- The SizeLimit rule of the C1 witness: a 1 MB byte budget. -/
def c1WitnessRule : SizeLimitRotateRule :=
  { daily := { rotatedTime := "2025-01-09T00:05:00Z", filename := "d/a.log",
               delimiter := "-", days := 0, gzip := false },
    maxSize := 1, maxBackups := 0 }

/-- A 600 KB record (the first write of the C1 end-to-end example). -/
def c1WitnessRec1 : List Nat := List.replicate 614400 0

/-- A second 600 KB record (the write that triggers rotation). -/
def c1WitnessRec2 : List Nat := List.replicate 614400 1

/-- The logger state of the C1 witness after the first 600 KB write: counter
600 KB, the active file holding that record. -/
def c1WitnessLogger : RotateLogger SizeLimitRotateRule :=
  { filename := "d/a.log", backup := "d/a-2025-01-09T00:05:00Z.log",
    fpOpen := true, rule := c1WitnessRule, currentSize := 614400,
    activeContents := [c1WitnessRec1], activeExists := true, backups := [] }

/-- The clock sampled during the C1 witness step. -/
def c1WitnessClock : Clock :=
  { nowDate := "2025-01-10", nowRFC3339Shifted := "2025-01-09T12:10:00Z" }

/-- Witness for C1: writing a second 600 KB record against a 1 MB budget
(1.2 MB > 1 MB) with all filesystem operations succeeding leaves exactly
that record in the fresh active file, the counter at 600 KB, and the first
record in a backup file. -/
theorem c1_rotating_record_first_in_new_file_witness :
    SizeLimitRotateRule.ShallRotate c1WitnessRule 614400 614400 = true
    ∧ (RotateLogger.write sizeLimitOps c1WitnessClock
        { closeOk := true, renameOk := true, createOk := true }
        c1WitnessLogger c1WitnessRec2).activeContents = [c1WitnessRec2]
    ∧ (RotateLogger.write sizeLimitOps c1WitnessClock
        { closeOk := true, renameOk := true, createOk := true }
        c1WitnessLogger c1WitnessRec2).currentSize = 614400
    ∧ (RotateLogger.write sizeLimitOps c1WitnessClock
        { closeOk := true, renameOk := true, createOk := true }
        c1WitnessLogger c1WitnessRec2).backups
        = [("d/a-2025-01-09T00:05:00Z.log", [c1WitnessRec1])] := by
  have hlen : (c1WitnessRec2.length : Int) = 614400 := by
    rw [c1WitnessRec2, List.length_replicate]
    norm_num
  have hshall : sizeLimitOps.shallRotate c1WitnessClock c1WitnessLogger.rule
      c1WitnessLogger.currentSize ((c1WitnessRec2.length : Int)) = true := by
    rw [hlen]
    decide
  have h := c1_rotating_record_first_in_new_file sizeLimitOps c1WitnessClock
    { closeOk := true, renameOk := true, createOk := true }
    c1WitnessLogger c1WitnessRec2 hshall rfl rfl rfl rfl (by decide)
  refine ⟨by decide, h.1, ?_, h.2.2.2⟩
  rw [h.2.1, hlen]

/-- C4 (amended): when renaming the target to the backup name fails, the
rotation is aborted and `rotate` returns the rename error immediately; no
attempt is made to re-create the original target filename, and the logger is
left without an open file handle until a later rotation succeeds. -/
theorem c4_rename_failure_no_reopen {ρ : Type} (ops : RuleOps ρ) (c : Clock)
    (env : RotateEnv) (l : RotateLogger ρ)
    (hclose : env.closeOk = true) (hexists : l.activeExists = true)
    (hbackup : l.backup ≠ "") (hrename : env.renameOk = false) :
    (RotateLogger.rotate ops c env l).2.1 = some RotateErr.renameErr
    ∧ (RotateLogger.rotate ops c env l).1.fpOpen = false
    ∧ FileOp.createF ∉ (RotateLogger.rotate ops c env l).2.2 := by
  simp [RotateLogger.rotate, hclose, hexists, hbackup, hrename]

/-- Witness for C4 at a concrete daily-rule logger whose rename fails. -/
theorem c4_rename_failure_no_reopen_witness :
    (RotateLogger.rotate dailyOps
      { nowDate := "2025-01-10", nowRFC3339Shifted := "2025-01-09T00:05:00Z" }
      { closeOk := true, renameOk := false, createOk := true }
      { filename := "a.log", backup := "a.log-2025-01-09", fpOpen := true,
        rule := { rotatedTime := "2025-01-09", filename := "a.log",
                  delimiter := "-", days := 0, gzip := false },
        currentSize := 10, activeContents := [[1, 2]], activeExists := true,
        backups := [] }).2.1 = some RotateErr.renameErr
    ∧ (RotateLogger.rotate dailyOps
      { nowDate := "2025-01-10", nowRFC3339Shifted := "2025-01-09T00:05:00Z" }
      { closeOk := true, renameOk := false, createOk := true }
      { filename := "a.log", backup := "a.log-2025-01-09", fpOpen := true,
        rule := { rotatedTime := "2025-01-09", filename := "a.log",
                  delimiter := "-", days := 0, gzip := false },
        currentSize := 10, activeContents := [[1, 2]], activeExists := true,
        backups := [] }).1.fpOpen = false
    ∧ FileOp.createF ∉ (RotateLogger.rotate dailyOps
      { nowDate := "2025-01-10", nowRFC3339Shifted := "2025-01-09T00:05:00Z" }
      { closeOk := true, renameOk := false, createOk := true }
      { filename := "a.log", backup := "a.log-2025-01-09", fpOpen := true,
        rule := { rotatedTime := "2025-01-09", filename := "a.log",
                  delimiter := "-", days := 0, gzip := false },
        currentSize := 10, activeContents := [[1, 2]], activeExists := true,
        backups := [] }).2.2 :=
  c4_rename_failure_no_reopen dailyOps
    { nowDate := "2025-01-10", nowRFC3339Shifted := "2025-01-09T00:05:00Z" }
    { closeOk := true, renameOk := false, createOk := true }
    { filename := "a.log", backup := "a.log-2025-01-09", fpOpen := true,
      rule := { rotatedTime := "2025-01-09", filename := "a.log",
                delimiter := "-", days := 0, gzip := false },
      currentSize := 10, activeContents := [[1, 2]], activeExists := true,
      backups := [] } rfl rfl (by decide) rfl

/-- Counterexample to C4 as stated: on a rename failure the source returns
before `os.Create`; at this concrete input the operation trace of the failed
rotation is exactly close-stat-rename — no create is attempted — and the
logger is left with no open handle, contradicting the claim that the writer
still attempts to reopen the target before returning. -/
theorem c4_rename_failure_no_reopen_counterexample :
    (RotateLogger.rotate dailyOps
      { nowDate := "2025-01-10", nowRFC3339Shifted := "2025-01-09T00:05:00Z" }
      { closeOk := true, renameOk := false, createOk := true }
      { filename := "a.log", backup := "a.log-2025-01-09", fpOpen := true,
        rule := { rotatedTime := "2025-01-09", filename := "a.log",
                  delimiter := "-", days := 0, gzip := false },
        currentSize := 10, activeContents := [[1, 2]], activeExists := true,
        backups := [] }).2.2 = [FileOp.closeFp, FileOp.statF, FileOp.renameF]
    ∧ (RotateLogger.rotate dailyOps
      { nowDate := "2025-01-10", nowRFC3339Shifted := "2025-01-09T00:05:00Z" }
      { closeOk := true, renameOk := false, createOk := true }
      { filename := "a.log", backup := "a.log-2025-01-09", fpOpen := true,
        rule := { rotatedTime := "2025-01-09", filename := "a.log",
                  delimiter := "-", days := 0, gzip := false },
        currentSize := 10, activeContents := [[1, 2]], activeExists := true,
        backups := [] }).1.fpOpen = false := by
  decide

/-- C3 (amended): `Close` performs its I/O (sync, close) only on the first
call; a second call performs no additional I/O and always returns nil — it
does not re-observe the first call's error, because the `err` local of each
call starts out nil and `closeOnce.Do` skips the body that would assign it. -/
theorem c3_close_second_call_nil (env1 env2 : CloseEnv) (st : CloseState)
    (h : st.onceDone = false) :
    RotateLogger.Close env2 (RotateLogger.Close env1 st).2.1
      = (none, (RotateLogger.Close env1 st).2.1, []) := by
  cases henv : env1.syncRes <;>
    simp [RotateLogger.Close, h, henv]

/-- Witness for C3 (amended): concretely, after a first close whose sync
fails, the second close does nothing and returns nil. -/
theorem c3_close_second_call_nil_witness :
    RotateLogger.Close { syncRes := some "sync-error", closeRes := none }
      (RotateLogger.Close { syncRes := some "sync-error", closeRes := none }
        { onceDone := false }).2.1
      = (none,
        (RotateLogger.Close { syncRes := some "sync-error", closeRes := none }
          { onceDone := false }).2.1, []) :=
  c3_close_second_call_nil
    { syncRes := some "sync-error", closeRes := none }
    { syncRes := some "sync-error", closeRes := none }
    { onceDone := false } rfl

/-- Counterexample to C3 as stated: when the first `Close` fails in
`fp.Sync()` and returns that error, the second `Close` returns nil — not the
same error value the first call returned. -/
theorem c3_close_counterexample :
    (RotateLogger.Close { syncRes := some "sync-error", closeRes := none }
      { onceDone := false }).1 = some "sync-error"
    ∧ (RotateLogger.Close { syncRes := some "sync-error", closeRes := none }
      (RotateLogger.Close { syncRes := some "sync-error", closeRes := none }
        { onceDone := false }).2.1).1 = none
    ∧ some "sync-error" ≠ (none : Option String) := by
  decide

/-- C9 (amended): a record submitted after the writer is closed gets the
"log file closed" error with 0 bytes accepted and is routed to the fallback
diagnostic sink whenever the select takes the done branch — which is
guaranteed when the channel send is not ready (buffer full, no receiver);
but when the buffer still has space the select may pick the send case, in
which case the call returns success and the record is enqueued to a channel
no worker drains any more. -/
theorem c9_write_after_close (sendReady pick : Bool) (dataLen : Int)
    (h : sendReady = false ∨ pick = false) :
    RotateLogger.WriteSelect sendReady true pick dataLen = some (0, true, true) := by
  rcases h with h | h <;> subst h <;> simp [RotateLogger.WriteSelect]

/-- Witness for C9 (amended): with the queue unable to accept the record,
a post-close write returns the closed error and the fallback is used. -/
theorem c9_write_after_close_witness :
    RotateLogger.WriteSelect false true true 7 = some (0, true, true) :=
  c9_write_after_close false true 7 (Or.inl rfl)

/-- Counterexample to C9 as stated: with buffer space available
(`sendReady = true`) the select may pick the send case (`pick = true`), and
the post-close write returns `(len(data), nil)` — no closed error, no
fallback logging — so not every record submitted after close gets the error
and the fallback. -/
theorem c9_write_after_close_counterexample :
    RotateLogger.WriteSelect true true true 7 = some (7, false, false)
    ∧ some ((7 : Int), false, false) ≠ some ((0 : Int), true, true) := by
  decide
